import Mathlib

/-!
Shallow embedding of the `coss` areal-interpolation core
(`coss/areal/areal_weighting.py`, `coss/areal/dasy.py`, `coss/areal/model.py`,
`coss/areal/areal_geobootstrap.py`, and the facade `coss/interpolation.py`).

Modelling conventions:
* GeoDataFrames become lists of rows.  A source row carries its unique
  identifier `sid`, its polygon's own area (`sources.area`) and the value of
  the single interpolated variable; a target row carries `tid` and its
  polygon's own area.
* Machine floats become `ℚ` (the claims under study are algebraic identities
  "within floating-point tolerance", so exact rationals are the right model);
  `numpy.nanstd` needs a square root and is modelled in `ℝ`.
* External collaborators (the geometric overlay primitive `gpd.overlay`,
  `gpd.clip`, `statsmodels` fitting/prediction, `geobootstrap.sample`,
  `_poly_to_points`) are parameters: their outputs are inputs of the embedded
  functions, exactly as the spec's §6 describes them as consumed contracts.
  In particular an intersection fragment is one row of the overlay result and
  carries, as the overlay does, both parent identifiers, the intersection
  area, and the attribute columns copied from both parents (the source's
  variable value, and the reference-area column `Aj` that
  `_areal_weighting_single` attaches to one side before overlaying — we carry
  both parents' own areas and select by variable kind, which is the same
  thing).
* Python exceptions become an error type `PyError`; a `ValueError` carries its
  message.
-/

namespace Coss

/-- Errors raised by the Python code: `ValueError(msg)`, the
`UnboundLocalError` that a read of an unassigned local raises, and the
`TypeError` that subscripting `None` would raise. -/
inductive PyError where
  | valueError (msg : String)
  | unboundLocal
  | typeError (msg : String)
  deriving DecidableEq, Repr

/-- One row of the source GeoDataFrame: unique identifier, the polygon's own
area (`sources.area`), and the interpolated variable's value. -/
structure SourceRow where
  sid : Nat
  area : ℚ
  value : ℚ
  deriving DecidableEq, Repr

/-- One row of the target GeoDataFrame: unique identifier and the polygon's
own area (`targets.area`). -/
structure TargetRow where
  tid : Nat
  area : ℚ
  deriving DecidableEq, Repr

/-- One intersection fragment produced by the external overlay primitive
`gpd.overlay(targets, sources, how="intersection")`: both parent identifiers,
the fragment's area (`intersect.area`), and the attribute columns the overlay
copies from the parents (the source's variable value and each parent's own
area, of which the code's `Aj` column is one, depending on variable kind). -/
structure Frag where
  tid : Nat
  sid : Nat
  area : ℚ
  srcValue : ℚ
  srcArea : ℚ
  tgtArea : ℚ
  deriving DecidableEq, Repr

/-- `Wij = Ai / Aj` of `_areal_weighting_single`: the fragment's area divided
by the reference area `Aj`, which is the owning source polygon's own area for
an extensive variable and the owning target polygon's own area for an
intensive one (the side the code attached the `Aj` column to). -/
def fragWeight (isExt : Bool) (f : Frag) : ℚ :=
  f.area / (if isExt then f.srcArea else f.tgtArea)

/-- `Ei = Vj * Wij` of `_areal_weighting_single`: source value times weight. -/
def fragEstimate (isExt : Bool) (f : Frag) : ℚ :=
  f.srcValue * fragWeight isExt f

/-- The distinct target identifiers appearing in the overlay result, in
ascending order — the group keys of
`intersect[[tid, var]].groupby(by=tid).sum()` (pandas sorts group keys). -/
def groupTids (frags : List Frag) : List Nat :=
  List.insertionSort (fun a b => a ≤ b) ((frags.map Frag.tid).dedup)

/-- `Gk = intersect[[tid, var]].groupby(by=tid).sum()`: per-target sum of the
fragment estimates `Ei`. -/
def groupbySumVar (isExt : Bool) (frags : List Frag) : List (Nat × ℚ) :=
  (groupTids frags).map
    (fun t => (t, ((frags.filter (fun f => f.tid = t)).map (fragEstimate isExt)).sum))

/-- Lines 198–202 of `_areal_weighting_single`: the grouped estimates, and —
in `total` weighting mode — the global rescale of every aggregate by
`w = sum(sources[var]) / sum(Gk[var])`. -/
def awGk (isExt : Bool) (weights : String) (sources : List SourceRow)
    (frags : List Frag) : List (Nat × ℚ) :=
  let gk0 := groupbySumVar isExt frags
  if weights = "total" then
    let w := (sources.map SourceRow.value).sum / ((gk0.map Prod.snd).sum)
    gk0.map (fun q => (q.1, q.2 * w))
  else gk0

/-- One row of the merged output `pd.merge(targets, Gk, on=tid, ...)`:
the target-side row (absent for an outer-join row whose key only occurs in
`Gk`) and the estimate (absent for an outer-join target with no overlap). -/
structure MergedRow where
  target : Option TargetRow
  est : Option ℚ
  deriving DecidableEq, Repr

/-- `pd.merge(targets, Gk, on=tid, how="inner")`: one row per target whose
identifier occurs among the group keys, in target order (pandas preserves the
left frame's key order for an inner merge). -/
def mergeInner (targets : List TargetRow) (gk : List (Nat × ℚ)) :
    List MergedRow :=
  targets.filterMap (fun t => (gk.lookup t.tid).map (fun v => ⟨some t, some v⟩))

/-- `pd.merge(targets, Gk, on=tid, how="outer")`: every target (with an absent
estimate when its identifier has no group), followed by the groups whose key
matches no target (row multiset of the pandas outer merge; pandas sorts the
union of keys, an ordering none of the verified properties depend on). -/
def mergeOuter (targets : List TargetRow) (gk : List (Nat × ℚ)) :
    List MergedRow :=
  targets.map (fun t => ⟨some t, gk.lookup t.tid⟩) ++
    (gk.filter (fun q => targets.all (fun t => ¬ t.tid = q.1))).map
      (fun q => ⟨none, some q.2⟩)

/-- Result of `_areal_weighting_single`: a merged table when `geoms=True`,
otherwise the bare grouped frame `Gk`. -/
inductive AWResult where
  | table (rows : List MergedRow)
  | gk (rows : List (Nat × ℚ))
  deriving DecidableEq, Repr

/-- `_areal_weighting_single` (`coss/areal/areal_weighting.py`).
`targetCols` is the target frame's set of attribute column names, used by the
name-collision check `if var in targets`.  The overlay result `frags` is an
input (external primitive).  The mixed-variables check, the
intensive-requires-`sum` check and the collision check reproduce the source's
order; the reference-area column attached to sources (extensive) or targets
(intensive) is carried on each fragment. -/
def areal_weighting_single (targetCols : List String)
    (extensive intensive : Option String) (weights : String)
    (sources : List SourceRow) (targets : List TargetRow) (frags : List Frag)
    (geoms all_geoms : Bool) : Except PyError AWResult :=
  if extensive.isSome ∧ intensive.isSome then
    .error (.valueError "Use _areal_weighting_multi for mixed types - not yet supported")
  else if intensive.isSome ∧ ¬ weights = "sum" then
    .error (.valueError "Areal weighting only supports sum weights with use of intensive variables")
  else
    let isExt := extensive.isSome
    let varName := (if isExt then extensive else intensive).getD ""
    if varName ∈ targetCols then
      .error (.valueError (varName ++ " already in target GeoDataFrame"))
    else
      let gk := awGk isExt weights sources frags
      if geoms then
        if all_geoms then .ok (.table (mergeOuter targets gk))
        else .ok (.table (mergeInner targets gk))
      else .ok (.gk gk)

/-- `_areal_weighting` (the dispatcher).  With exactly one variable kind set
it delegates to `_areal_weighting_single`; with both set it raises the mixed
`ValueError`; with neither set the Python function falls through and returns
`None` (modelled as `.ok none`).  The `extensive is type(list)` guards of the
source are identically false (`is` comparison of a string with the `type`
object) and are therefore no-ops. -/
def areal_weighting (targetCols : List String)
    (extensive intensive : Option String) (weights : String)
    (sources : List SourceRow) (targets : List TargetRow) (frags : List Frag)
    (geoms all_geoms : Bool) : Except PyError (Option AWResult) :=
  if extensive.isSome ∧ intensive.isNone then
    (areal_weighting_single targetCols extensive intensive weights sources
      targets frags geoms all_geoms).map some
  else if extensive.isNone ∧ intensive.isSome then
    (areal_weighting_single targetCols extensive intensive weights sources
      targets frags geoms all_geoms).map some
  else if extensive.isSome ∧ intensive.isSome then
    .error (.valueError "Mixed areal interpolation is not yet supported")
  else .ok none

/-- Result of `_dasy`: the intensive path returns the merged areal-weighting
table unchanged; the extensive path returns the original target rows paired
with the column the assignment `targets[extensive] = areal_diff[extensive]`
produces. -/
inductive DasyResult where
  | intTable (rows : List MergedRow)
  | extTable (rows : List (TargetRow × Option ℚ))
  deriving DecidableEq, Repr

/-- `_dasy` (`coss/areal/dasy.py`).  The external masking primitives are
inputs: `clipped` is `gpd.clip(targets, mask)` and `differenced` is
`gpd.overlay(targets, mask, how="difference")`; `fragsOf` is the external
overlay primitive applied inside the delegated areal weighting, as a function
of the masked target rows.  The delegated call uses `geoms=True`,
`all_geoms=False`, exactly as the source.

In the extensive branch the source line
`targets = targets[targets[tid].isin(targets[tid])]` filters `targets` by
membership of its own identifier column in itself and is therefore the
identity; the following line `targets[extensive] = areal_diff[extensive]`
assigns by pandas index alignment: `areal_diff` is a `pd.merge` result and
carries a fresh integer range index `0..M-1`, and `targets` carries the
default range index `0..N-1`, so row `i` of `targets` receives row `i` of the
rescaled column when `i < M` and a missing value otherwise. -/
def dasy (targetCols : List String) (sources : List SourceRow)
    (targets : List TargetRow) (clipped differenced : List TargetRow)
    (fragsOf : List TargetRow → List Frag) (how : String)
    (extensive intensive : Option String) (weights : String) :
    Except PyError DasyResult :=
  if ¬ how = "clip" ∧ ¬ how = "difference" then
    .error (.valueError "Only clip and difference are supported for masking target geometries")
  else
    let diff := if how = "clip" then clipped else differenced
    match areal_weighting targetCols extensive intensive weights sources diff
        (fragsOf diff) true false with
    | .error e => .error e
    | .ok res =>
      if extensive.isNone ∧ intensive.isSome then
        match res with
        | some (.table rows) => .ok (.intTable rows)
        | _ => .error (.typeError "NoneType object is not subscriptable")
      else if extensive.isSome ∧ intensive.isNone then
        match res with
        | some (.table rows) =>
          let col := rows.map MergedRow.est
          let w := (sources.map SourceRow.value).sum / ((col.filterMap id).sum)
          let rescaled := col.map (fun o => o.map (fun v => v * w))
          .ok (.extTable (targets.zip
            ((List.range targets.length).map
              (fun i => (rescaled.get? i).getD none))))
        | _ => .error (.typeError "NoneType object is not subscriptable")
      else
        .error (.valueError "Only single variables are currently supported")

/-- The model family `_model_fit` selects: a Poisson generalized linear model
(`smf.glm(..., family=Poisson())`) or ordinary least squares (`smf.ols`). -/
inductive ModelFamily where
  | poissonGLM
  | ols
  deriving DecidableEq, Repr

/-- `_model_fit` (`coss/areal/model.py`).  The numeric fitting itself is the
external `statsmodels` collaborator; the embedded function captures the
branch structure that selects the model family.  When neither branch of the
`if`/`elif` runs (both kinds set, or neither set) the local `mod` is never
assigned and the final `mod.fit()` raises `UnboundLocalError`. -/
def model_fit (df_fit : List (List ℚ)) (extensive intensive : Option String)
    (formula : String) : Except PyError ModelFamily :=
  if extensive.isSome ∧ intensive.isNone then .ok .poissonGLM
  else if extensive.isNone ∧ intensive.isSome then .ok .ols
  else .error .unboundLocal

/-- `_model_pred` (`coss/areal/model.py`).  `pred` is the output of the
external `fit_model.predict(df_pred)`; the extensive branch rescales every
raw prediction by `wts = sum(sources[extensive]) / sum(pred)`, the other
branch returns the predictions unchanged. -/
def model_pred (sources : List SourceRow) (pred : List ℚ)
    (extensive intensive : Option String) : List ℚ :=
  if extensive.isSome ∧ intensive.isNone then
    let wts := (sources.map SourceRow.value).sum / pred.sum
    pred.map (fun p => p * wts)
  else pred

/-- `numpy.nanmedian` over one row of resampled values, modelled on `ℚ`
(rationals carry no NaN; the NaN-skipping aspect is outside the model):
sort, take the middle element, or the mean of the two middle elements. -/
def nanmedian (xs : List ℚ) : ℚ :=
  let s := List.insertionSort (fun a b => a ≤ b) xs
  let n := xs.length
  if n % 2 = 1 then (s.get? (n / 2)).getD 0
  else (((s.get? (n / 2 - 1)).getD 0) + ((s.get? (n / 2)).getD 0)) / 2

/-- Arithmetic mean of a list of rationals. -/
def listMean (xs : List ℚ) : ℚ := xs.sum / (xs.length : ℚ)

/-- Population variance, as `numpy` computes it (denominator `n`). -/
def popVariance (xs : List ℚ) : ℚ :=
  ((xs.map (fun x => (x - listMean xs) ^ 2)).sum) / (xs.length : ℚ)

/-- `numpy.nanstd` over one row of resampled values: the square root of the
population variance (a real number). -/
noncomputable def nanstd (xs : List ℚ) : ℝ := Real.sqrt ((popVariance xs : ℚ) : ℝ)

/-- A point GeoDataFrame produced by the external `_poly_to_points`
collaborator: one `(identifier, x, y)` row per polygon. -/
structure PointSet where
  pts : List (Nat × ℚ × ℚ)
  deriving DecidableEq, Repr

/-- A `gdf.bounds.to_numpy()` array: one `(minx, miny, maxx, maxy)` row per
polygon. -/
abbrev Bounds := List (ℚ × ℚ × ℚ × ℚ)

/-- `_areal_geobootstrap` (`coss/areal/areal_geobootstrap.py`).
The external collaborators are parameters: `boundsOfSources` and
`boundsOfTargets` stand for `sources.bounds.to_numpy()` and
`targets.bounds.to_numpy()`; `polyToPoints` is `_poly_to_points` (first
argument `true` for the source side, mirroring the two call sites with their
`uid`/`bounds` arguments); `sample` is the external `geobootstrap` resampler
composed with the per-group column extraction `[g[col].to_numpy() for g in
gs]`, so it yields one list of `r` resampled variable values per target.

The source accepts only `groupby` values from the list `["median"]` and
raises a `ValueError` for anything else; `r=None` defaults to the number of
targets; the `dropna` branches are textually identical and both reduce each
target's resamples with `np.nanmedian` and `np.nanstd`. -/
noncomputable def areal_geobootstrap (sources : List SourceRow)
    (targets : List TargetRow) (r : Option Nat) (kernel metric : String)
    (bandwidth : ℚ) (col : String) (source_bounds target_bounds : Option Bounds)
    (p : Nat) (method groupby : String) (dropna : Bool)
    (boundsOfSources boundsOfTargets : Bounds)
    (polyToPoints : Bool → String → Bounds → Nat → PointSet)
    (sample : PointSet → PointSet → Nat → String → String → ℚ → List (List ℚ)) :
    Except PyError (List ℚ × List ℝ) :=
  if ¬ groupby ∈ (["median"] : List String) then
    .error (.valueError "Only ['median'] are supported")
  else
    let rr := r.getD targets.length
    let sb := source_bounds.getD boundsOfSources
    let tb := target_bounds.getD boundsOfTargets
    let sp := polyToPoints true method sb p
    let tp := polyToPoints false method tb p
    let gs := sample sp tp rr kernel metric bandwidth
    if dropna then .ok (gs.map nanmedian, gs.map nanstd)
    else .ok (gs.map nanmedian, gs.map nanstd)

/-- The state an `areal_interpolation` facade object holds
(`coss/interpolation.py`, `__init__`): the frames and the per-call
configuration. -/
structure ArealState where
  sources : List SourceRow
  targets : List TargetRow
  targetCols : List String
  extensive : Option String
  intensive : Option String
  weights : String
  geoms : Bool
  all_geoms : Bool
  deriving Repr

/-- Result of the facade method `areal_geobootstrap`: with `merge=True` the
target rows with the estimate and uncertainty columns attached; with any
other `merge` the Python method falls through and returns `None`. -/
inductive GBFacadeResult where
  | merged (rows : List (TargetRow × ℚ × ℝ))
  | noneResult

/-- The facade method `areal_interpolation.areal_geobootstrap`
(`coss/interpolation.py`, lines 169–246).  `checks` stands for
`self.areal_checks()` (CRS validation and identifier resolution, external
collaborators of §6 of the spec), which depends only on the object's state.
After the extensive-variable rejection the method invokes the underlying
resampler with the literal arguments `r=1000`, `kernel="gaussian"`,
`metric="euclidean"`, `bandwidth=1000`, `col=self.intensive`,
`source_bounds=None`, `target_bounds=None`, `p=1000`,
`method="random points"`, `groupby="median"` — not with the method's own
parameters. -/
noncomputable def facade_areal_geobootstrap (st : ArealState)
    (checks : Except PyError (List SourceRow × List TargetRow × String × String))
    (r : Nat) (kernel metric : String) (bandwidth : ℚ)
    (source_bounds target_bounds : Option Bounds) (p : Nat)
    (method groupby : String) (merge : Bool)
    (boundsOfSources : List SourceRow → Bounds)
    (boundsOfTargets : List TargetRow → Bounds)
    (polyToPoints : Bool → String → Bounds → Nat → PointSet)
    (sample : PointSet → PointSet → Nat → String → String → ℚ → List (List ℚ)) :
    Except PyError GBFacadeResult :=
  if st.extensive.isSome then
    .error (.valueError "Areal geobootstrap only supports intensive variables")
  else
    match checks with
    | .error e => .error e
    | .ok (sources, targets, _, _) =>
      match areal_geobootstrap sources targets (some 1000) "gaussian"
          "euclidean" 1000 (st.intensive.getD "") none none 1000
          "random points" "median" true
          (boundsOfSources sources) (boundsOfTargets targets)
          polyToPoints sample with
      | .error e => .error e
      | .ok (stats, stds) =>
        if merge then
          .ok (.merged (targets.zip (stats.zip stds)))
        else .ok .noneResult

/-- Observable for `DasyResult`: the sum of the non-missing per-target
estimates of an extensive-path result (the quantity the mass-conservation
contract constrains). -/
def dasyEstimateSum : DasyResult → ℚ
  | .extTable rows => ((rows.map Prod.snd).filterMap id).sum
  | .intTable _ => 0

/-! ### Helper lemmas about the grouped frame and the merges -/

theorem lookup_map_pair (g : Nat → ℚ) :
    ∀ (l : List Nat) (a : Nat), a ∈ l →
      (l.map (fun t => (t, g t))).lookup a = some (g a) := by
  intro l
  induction l with
  | nil => intro a ha; cases ha
  | cons b l ih =>
    intro a ha
    by_cases hab : a = b
    · subst hab; simp [List.lookup_cons]
    · rcases List.mem_cons.mp ha with h | h
      · exact absurd h hab
      · simpa [List.lookup_cons, beq_false_of_ne hab] using ih a h

theorem lookup_map_pair_not_mem (g : Nat → ℚ) :
    ∀ (l : List Nat) (a : Nat), ¬ a ∈ l →
      (l.map (fun t => (t, g t))).lookup a = none := by
  intro l
  induction l with
  | nil => intro a _; rfl
  | cons b l ih =>
    intro a ha
    have hab : ¬ a = b := fun h => ha (h ▸ List.mem_cons_self b l)
    have hmem : ¬ a ∈ l := fun h => ha (List.mem_cons_of_mem b h)
    simpa [List.lookup_cons, beq_false_of_ne hab] using ih a hmem

theorem lookup_map_snd (w : ℚ) :
    ∀ (l : List (Nat × ℚ)) (a : Nat),
      (l.map (fun q => (q.1, q.2 * w))).lookup a =
        (l.lookup a).map (fun x => x * w) := by
  intro l
  induction l with
  | nil => intro a; rfl
  | cons q l ih =>
    obtain ⟨k, v⟩ := q
    intro a
    by_cases hq : a = k
    · subst hq; simp [List.lookup_cons]
    · simpa [List.lookup_cons, beq_false_of_ne hq] using ih a

theorem mem_groupTids (frags : List Frag) (t : Nat) :
    t ∈ groupTids frags ↔ t ∈ frags.map Frag.tid := by
  simp [groupTids, List.mem_insertionSort, List.mem_dedup]

theorem groupbySumVar_lookup (isExt : Bool) (frags : List Frag) (t : Nat)
    (ht : t ∈ frags.map Frag.tid) :
    (groupbySumVar isExt frags).lookup t =
      some (((frags.filter (fun f => f.tid = t)).map (fragEstimate isExt)).sum) :=
  lookup_map_pair _ _ _ ((mem_groupTids frags t).mpr ht)

theorem groupbySumVar_lookup_not_mem (isExt : Bool) (frags : List Frag)
    (t : Nat) (ht : ¬ t ∈ frags.map Frag.tid) :
    (groupbySumVar isExt frags).lookup t = none :=
  lookup_map_pair_not_mem _ _ _ (fun h => ht ((mem_groupTids frags t).mp h))

theorem awGk_sum (isExt : Bool) (sources : List SourceRow)
    (frags : List Frag) : awGk isExt "sum" sources frags =
      groupbySumVar isExt frags := by
  simp [awGk]

theorem awGk_lookup_none_iff (isExt : Bool) (weights : String)
    (sources : List SourceRow) (frags : List Frag) (t : Nat) :
    (awGk isExt weights sources frags).lookup t = none ↔
      ¬ t ∈ frags.map Frag.tid := by
  constructor
  · intro h ht
    by_cases hw : weights = "total"
    · simp only [awGk, if_pos hw, lookup_map_snd,
        groupbySumVar_lookup _ _ _ ht] at h
      simp at h
    · simp only [awGk, if_neg hw, groupbySumVar_lookup _ _ _ ht] at h
      simp at h
  · intro ht
    by_cases hw : weights = "total"
    · simp only [awGk, if_pos hw, lookup_map_snd,
        groupbySumVar_lookup_not_mem _ _ _ ht]
      rfl
    · simp only [awGk, if_neg hw]
      exact groupbySumVar_lookup_not_mem _ _ _ ht

theorem awGk_map_fst (isExt : Bool) (weights : String)
    (sources : List SourceRow) (frags : List Frag) :
    (awGk isExt weights sources frags).map Prod.fst = groupTids frags := by
  by_cases hw : weights = "total"
  · simp only [awGk, if_pos hw, groupbySumVar, List.map_map]
    exact List.map_id _
  · simp only [awGk, if_neg hw, groupbySumVar, List.map_map]
    exact List.map_id _

theorem mergeInner_eq_filter_map (targets : List TargetRow)
    (gk : List (Nat × ℚ)) :
    mergeInner targets gk =
      (targets.filter (fun t => (gk.lookup t.tid).isSome)).map
        (fun t => ⟨some t, gk.lookup t.tid⟩) := by
  induction targets with
  | nil => rfl
  | cons t ts ih =>
    cases h : gk.lookup t.tid <;>
      simp [mergeInner, List.filterMap_cons, List.filter_cons, h] <;>
      simpa [mergeInner] using ih

theorem mergeInner_map_est (targets : List TargetRow) (gk : List (Nat × ℚ)) :
    (mergeInner targets gk).map MergedRow.est =
      (targets.filterMap (fun t => gk.lookup t.tid)).map some := by
  induction targets with
  | nil => rfl
  | cons t ts ih =>
    cases h : gk.lookup t.tid <;>
      simp [mergeInner, List.filterMap_cons, h] <;>
      simpa [mergeInner] using ih

theorem range_map_getD_eq_append (vals : List (Option ℚ)) :
    ∀ n, vals.length ≤ n →
      (List.range n).map (fun i => (vals.get? i).getD none) =
        vals ++ List.replicate (n - vals.length) none := by
  induction vals with
  | nil =>
    intro n _
    simp [List.map_const']
  | cons v vs ih =>
    intro n hn
    cases n with
    | zero => simp at hn
    | succ m =>
      have hm : vs.length ≤ m := Nat.le_of_succ_le_succ hn
      rw [List.range_succ_eq_map, List.map_cons, List.map_map]
      have : ((List.range m).map
          (fun i => (((v :: vs).get? (Nat.succ i)).getD none)) : List (Option ℚ)) =
          (List.range m).map (fun i => ((vs.get? i).getD none)) := rfl
      simp only [Function.comp_def]
      rw [this, ih m hm]
      simp [Nat.succ_sub_succ]

theorem filterMap_id_append_replicate_none (l : List (Option ℚ)) (k : Nat) :
    (l ++ List.replicate k none).filterMap id = l.filterMap id := by
  rw [List.filterMap_append]
  have : (List.replicate k (none : Option ℚ)).filterMap id = [] := by
    induction k with
    | zero => rfl
    | succ m ih => simp [List.replicate_succ, List.filterMap_cons, ih]
  simp [this]

theorem filterMap_id_map_option_map (g : ℚ → ℚ) (l : List (Option ℚ)) :
    (l.map (Option.map g)).filterMap id = (l.filterMap id).map g := by
  induction l with
  | nil => rfl
  | cons o os ih => cases o <;> simp [List.filterMap_cons, ih]

theorem filterMap_id_map_some (l : List ℚ) :
    (l.map some).filterMap id = l := by
  induction l with
  | nil => rfl
  | cons x xs ih => simp [List.filterMap_cons, ih]

theorem sum_map_mul (w : ℚ) :
    ∀ l : List ℚ, (l.map (fun x => x * w)).sum = l.sum * w := by
  intro l
  induction l with
  | nil => simp
  | cons x xs ih => simp [ih, add_mul]

theorem sum_map_snd_mul (w : ℚ) (l : List (Nat × ℚ)) :
    ((l.map (fun q => (q.1, q.2 * w))).map Prod.snd).sum =
      (l.map Prod.snd).sum * w := by
  induction l with
  | nil => simp
  | cons q l ih =>
    rw [List.map_cons, List.map_cons, List.map_cons, List.sum_cons,
      List.sum_cons, ih, add_mul]

/-! ### Claim theorems -/

/-- Claim C4: for the regression estimator's extensive path, whenever the sum
of the raw predictions is non-zero, the sum of the calibrated predictions
equals the sum of the source actual values of the extensive variable exactly,
because every raw prediction is multiplied by the single factor
(sum of source actual values) / (sum of raw predictions). -/
theorem model_pred_extensive_calibration_conserves_total
    (sources : List SourceRow) (pred : List ℚ) (v : String)
    (hsum : pred.sum ≠ 0) :
    (model_pred sources pred (some v) none).sum =
      (sources.map SourceRow.value).sum := by
  simp only [model_pred, Option.isSome_some, Option.isNone_none, and_self,
    if_true, reduceIte]
  rw [List.sum_map_mul_right, List.map_id']
  field_simp

/-- Witness for C4 at a concrete input: raw predictions `[1, 3]` (sum `4 ≠ 0`)
and source values `[5, 7]`; the calibrated sum is `12`. -/
theorem model_pred_extensive_calibration_conserves_total_witness :
    (model_pred [⟨1, 1, 5⟩, ⟨2, 1, 7⟩] [1, 3] (some "pop") none).sum =
      ((([⟨1, 1, 5⟩, ⟨2, 1, 7⟩] : List SourceRow)).map SourceRow.value).sum :=
  model_pred_extensive_calibration_conserves_total
    [⟨1, 1, 5⟩, ⟨2, 1, 7⟩] [1, 3] "pop" (by norm_num)

/-- Claim C5: the regression estimator selects its model family solely by the
declared variable kind — an extensive-only call fits a Poisson generalized
linear model, an intensive-only call fits ordinary least squares, and a call
declaring both kinds or neither kind is rejected (the code raises: no branch
assigns the local `mod`, so `mod.fit()` raises `UnboundLocalError`). -/
theorem model_fit_family_selection (df : List (List ℚ))
    (extensive intensive : Option String) (formula : String) :
    (extensive.isSome → intensive = none →
      model_fit df extensive intensive formula = .ok .poissonGLM)
    ∧ (extensive = none → intensive.isSome →
      model_fit df extensive intensive formula = .ok .ols)
    ∧ ((extensive.isSome ∧ intensive.isSome) ∨
        (extensive = none ∧ intensive = none) →
      ∃ e, model_fit df extensive intensive formula = .error e) := by
  refine ⟨?_, ?_, ?_⟩
  · intro he hi
    subst hi
    simp [model_fit, he]
  · intro he hi
    subst he
    simp [model_fit, hi, Option.isSome_iff_ne_none]
  · rintro (⟨he, hi⟩ | ⟨he, hi⟩)
    · refine ⟨.unboundLocal, ?_⟩
      simp [model_fit, he, Option.isNone_iff_eq_none,
        Option.isSome_iff_ne_none.mp hi, Option.isSome_iff_ne_none.mp he]
    · subst he; subst hi
      simp [model_fit]

/-- Witness for C5 at concrete inputs: an extensive-only call yields the
Poisson family, an intensive-only call yields ordinary least squares, and a
both-kinds call errors. -/
theorem model_fit_family_selection_witness :
    model_fit [] (some "pop_count") none "pop_count ~ -1 + build_counts" =
      .ok .poissonGLM
    ∧ model_fit [] none (some "pop_density") "f" = .ok .ols
    ∧ ∃ e, model_fit [] (some "pop_count") (some "pop_density") "f" =
        .error e :=
  ⟨(model_fit_family_selection [] (some "pop_count") none
      "pop_count ~ -1 + build_counts").1 rfl rfl,
   (model_fit_family_selection [] none (some "pop_density") "f").2.1 rfl rfl,
   (model_fit_family_selection [] (some "pop_count") (some "pop_density")
      "f").2.2 (Or.inl ⟨rfl, rfl⟩)⟩

/-- Claim C1: mass conservation.  (a) For OverlapWeighter in `total`
weighting mode on an extensive variable, the sum of the per-target estimates
equals the sum of the source values of the variable, whenever the sum of the
pre-rescale aggregated target values is non-zero.  (b) For DasymetricMasker
in the extensive case (either masking mode), the sum of the non-missing
per-target estimates equals the sum of the source values, whenever the sum
of the pre-rescale aggregated masked-target values is non-zero (and masking
does not increase the target row count, which clipping cannot). -/
theorem mass_conservation_total_and_dasy
    (cols : List String) (v : String) (hv : ¬ v ∈ cols)
    (sources : List SourceRow) (targets : List TargetRow) (frags : List Frag)
    (hsum : ((groupbySumVar true frags).map Prod.snd).sum ≠ 0)
    (clipped differenced : List TargetRow)
    (fragsOf : List TargetRow → List Frag) (how weights : String)
    (hhow : how = "clip" ∨ how = "difference")
    (hlen : (if how = "clip" then clipped else differenced).length ≤
      targets.length)
    (hdsum : (((mergeInner (if how = "clip" then clipped else differenced)
        (awGk true weights sources
          (fragsOf (if how = "clip" then clipped else differenced)))).map
        MergedRow.est).filterMap id).sum ≠ 0) :
    (areal_weighting_single cols (some v) none "total" sources targets frags
        false false = .ok (.gk (awGk true "total" sources frags))
      ∧ ((awGk true "total" sources frags).map Prod.snd).sum =
          (sources.map SourceRow.value).sum)
    ∧ (dasy cols sources targets clipped differenced fragsOf how (some v)
        none weights).map dasyEstimateSum =
          .ok ((sources.map SourceRow.value).sum) := by
  constructor
  · refine ⟨by simp [areal_weighting_single, hv], ?_⟩
    have h1 : awGk true "total" sources frags =
        (groupbySumVar true frags).map (fun q => (q.1, q.2 *
          ((sources.map SourceRow.value).sum /
            ((groupbySumVar true frags).map Prod.snd).sum))) := by
      simp [awGk]
    rw [h1, sum_map_snd_mul, mul_comm]
    exact div_mul_cancel₀ _ hsum
  · have hguard : ¬ (¬ how = "clip" ∧ ¬ how = "difference") := by
      rcases hhow with h | h <;> simp [h]
    have hsingle : areal_weighting cols (some v) none weights sources
        (if how = "clip" then clipped else differenced)
        (fragsOf (if how = "clip" then clipped else differenced)) true false =
        .ok (some (.table (mergeInner
          (if how = "clip" then clipped else differenced)
          (awGk true weights sources (fragsOf (if how = "clip" then clipped
            else differenced)))))) := by
      simp [areal_weighting, areal_weighting_single, hv, Except.map]
    simp only [dasy]
    rw [if_neg hguard, hsingle]
    simp only [Option.isNone_some, Option.isSome_some, Option.isSome_none,
      Option.isNone_none, and_self, and_false, false_and, if_false, if_true,
      Bool.false_eq_true, Except.map]
    set diff := (if how = "clip" then clipped else differenced) with hdiffdef
    set gk := awGk true weights sources (fragsOf diff) with hgkdef
    set rows0 := mergeInner diff gk with hrows0
    set col := rows0.map MergedRow.est with hcol
    set S := (col.filterMap id).sum with hS
    set w := (sources.map SourceRow.value).sum / S with hw
    set rescaled := col.map (fun o => o.map (fun v => v * w)) with hresc
    have hrlen : rescaled.length ≤ targets.length := by
      have h1 : rescaled.length = rows0.length := by
        simp [hresc, hcol]
      have h2 : rows0.length ≤ diff.length :=
        List.length_filterMap_le _ _
      exact le_trans (le_trans (le_of_eq h1) h2) hlen
    have hzip : ((targets.zip ((List.range targets.length).map
        (fun i => (rescaled.get? i).getD none))).map Prod.snd) =
        (List.range targets.length).map
          (fun i => (rescaled.get? i).getD none) := by
      apply List.map_snd_zip
      simp
    congr 1
    simp only [dasyEstimateSum]
    rw [hzip, range_map_getD_eq_append _ _ hrlen,
      filterMap_id_append_replicate_none, hresc,
      filterMap_id_map_option_map, sum_map_mul, hw, mul_comm]
    exact div_mul_cancel₀ _ hdsum

/-- Witness for C1 at a concrete input: one source of value `10` and area
`2`; two targets; the mask drops the first target; in `sum` mode the masked
pipeline aggregates `5`, the dasymetric rescale multiplies by `2`, and both
the overlap-`total` path and the dasymetric path conserve the source total
`10`. -/
theorem mass_conservation_total_and_dasy_witness :
    (areal_weighting_single [] (some "pop") none "total" [⟨1, 2, 10⟩]
        [⟨1, 1⟩, ⟨2, 1⟩] [⟨2, 1, 1, 10, 2, 1⟩] false false =
          .ok (.gk (awGk true "total" [⟨1, 2, 10⟩] [⟨2, 1, 1, 10, 2, 1⟩]))
      ∧ ((awGk true "total" [⟨1, 2, 10⟩] [⟨2, 1, 1, 10, 2, 1⟩]).map
          Prod.snd).sum =
          ((([⟨1, 2, 10⟩] : List SourceRow)).map SourceRow.value).sum)
    ∧ (dasy [] [⟨1, 2, 10⟩] [⟨1, 1⟩, ⟨2, 1⟩] [⟨2, 1⟩] []
        (fun _ => [⟨2, 1, 1, 10, 2, 1⟩]) "clip" (some "pop") none
        "sum").map dasyEstimateSum =
          .ok (((([⟨1, 2, 10⟩] : List SourceRow)).map SourceRow.value).sum) :=
  mass_conservation_total_and_dasy [] "pop" (by simp) [⟨1, 2, 10⟩]
    [⟨1, 1⟩, ⟨2, 1⟩] [⟨2, 1, 1, 10, 2, 1⟩]
    (by norm_num [groupbySumVar, groupTids, fragEstimate, fragWeight,
      List.insertionSort, List.orderedInsert, List.dedup, List.pwFilter])
    [⟨2, 1⟩] [] (fun _ => [⟨2, 1, 1, 10, 2, 1⟩]) "clip" "sum" (Or.inl rfl)
    (by norm_num)
    (by norm_num [mergeInner, awGk, groupbySumVar, groupTids, fragEstimate,
      fragWeight, List.insertionSort, List.orderedInsert, List.dedup,
      List.pwFilter, List.lookup, List.filterMap_cons])

/-- Claim C2: in OverlapWeighter (`sum` mode shown, where no global rescale
follows), every fragment's weight is its intersection area divided by the
owning source polygon's own area when the variable is extensive and by the
owning target polygon's own area when the variable is intensive, and each
target's estimate is the sum over its fragments of source value times
weight. -/
theorem overlap_weight_is_area_ratio_and_estimates_sum
    (cols : List String) (v : String) (hv : ¬ v ∈ cols)
    (sources : List SourceRow) (targets : List TargetRow) (frags : List Frag)
    (t : Nat) (ht : t ∈ frags.map Frag.tid) :
    (areal_weighting_single cols (some v) none "sum" sources targets frags
        false false = .ok (.gk (awGk true "sum" sources frags))
      ∧ (awGk true "sum" sources frags).lookup t =
          some (((frags.filter (fun f => f.tid = t)).map
            (fun f => f.srcValue * (f.area / f.srcArea))).sum))
    ∧ (areal_weighting_single cols none (some v) "sum" sources targets frags
        false false = .ok (.gk (awGk false "sum" sources frags))
      ∧ (awGk false "sum" sources frags).lookup t =
          some (((frags.filter (fun f => f.tid = t)).map
            (fun f => f.srcValue * (f.area / f.tgtArea))).sum)) := by
  refine ⟨⟨?_, ?_⟩, ⟨?_, ?_⟩⟩
  · simp [areal_weighting_single, hv]
  · rw [awGk_sum, groupbySumVar_lookup _ _ _ ht]; exact rfl
  · simp [areal_weighting_single, hv]
  · rw [awGk_sum, groupbySumVar_lookup _ _ _ ht]; exact rfl

/-- Witness for C2 at a concrete input: one source of area `4` and value
`100`, one fragment of area `1`; the extensive estimate for target `1` is
`100 * (1 / 4)` and the intensive estimate (target own area `2`,
fragment area `2`) is `7 * (2 / 2)`. -/
theorem overlap_weight_is_area_ratio_and_estimates_sum_witness :
    (areal_weighting_single [] (some "pop") none "sum" [⟨1, 4, 100⟩] [⟨1, 1⟩]
        [⟨1, 1, 1, 100, 4, 1⟩] false false =
          .ok (.gk (awGk true "sum" [⟨1, 4, 100⟩] [⟨1, 1, 1, 100, 4, 1⟩]))
      ∧ (awGk true "sum" [⟨1, 4, 100⟩] [⟨1, 1, 1, 100, 4, 1⟩]).lookup 1 =
          some ((([⟨1, 1, 1, 100, 4, 1⟩] : List Frag).filter
              (fun f => f.tid = 1)).map
            (fun f => f.srcValue * (f.area / f.srcArea))).sum)
    ∧ (areal_weighting_single [] none (some "pop") "sum" [⟨1, 4, 100⟩]
        [⟨1, 1⟩] [⟨1, 1, 1, 100, 4, 1⟩] false false =
          .ok (.gk (awGk false "sum" [⟨1, 4, 100⟩] [⟨1, 1, 1, 100, 4, 1⟩]))
      ∧ (awGk false "sum" [⟨1, 4, 100⟩] [⟨1, 1, 1, 100, 4, 1⟩]).lookup 1 =
          some ((([⟨1, 1, 1, 100, 4, 1⟩] : List Frag).filter
              (fun f => f.tid = 1)).map
            (fun f => f.srcValue * (f.area / f.tgtArea))).sum) :=
  overlap_weight_is_area_ratio_and_estimates_sum [] "pop" (by simp)
    [⟨1, 4, 100⟩] [⟨1, 1⟩] [⟨1, 1, 1, 100, 4, 1⟩] 1 (by simp)

/-- Counterexample to claim C3 as stated: in `sum` mode, a target fully
contained within exactly one source does NOT receive that source's value.
Extensive case: source of own area `4` and value `100`, target of own area
`1` fully inside it (its single fragment has area `1`); the code assigns
`100 * (1/4) = 25 ≠ 100`.  Intensive case: source rate `7`, target of own
area `2` fully inside it (fragment area `2`); the code assigns the rate
itself, `7`, not `7 * 2 = 14` (the claim's "per-area rate times the target's
own area"). -/
theorem contained_target_counterexample :
    areal_weighting_single [] (some "pop") none "sum" [⟨1, 4, 100⟩] [⟨1, 1⟩]
        [⟨1, 1, 1, 100, 4, 1⟩] false false = .ok (.gk [(1, 25)])
    ∧ (25 : ℚ) ≠ 100
    ∧ areal_weighting_single [] none (some "dens") "sum" [⟨1, 4, 7⟩] [⟨1, 2⟩]
        [⟨1, 1, 2, 7, 4, 2⟩] false false = .ok (.gk [(1, 7)])
    ∧ (7 : ℚ) ≠ 7 * 2 := by
  refine ⟨?_, by norm_num, ?_, by norm_num⟩ <;>
    (norm_num [areal_weighting_single, awGk, groupbySumVar, groupTids,
      fragEstimate, fragWeight, List.insertionSort, List.orderedInsert,
      List.dedup, List.pwFilter] <;> decide)

/-- Claim C3 as amended: in `sum` mode, a target whose only fragment covers
the whole target (full containment in exactly one source) receives the
source's value scaled by (target own area / source own area) when the
variable is extensive, and exactly the source's per-area rate (unscaled)
when the variable is intensive and the target's area is non-zero. -/
theorem contained_target_value_amended
    (cols : List String) (v : String) (hv : ¬ v ∈ cols)
    (sources : List SourceRow) (targets : List TargetRow) (frags : List Frag)
    (t : TargetRow) (f : Frag)
    (hfilter : frags.filter (fun g => g.tid = t.tid) = [f])
    (harea : f.area = t.area) (htgt : f.tgtArea = t.area) :
    (areal_weighting_single cols (some v) none "sum" sources targets frags
        false false = .ok (.gk (awGk true "sum" sources frags))
      ∧ (awGk true "sum" sources frags).lookup t.tid =
          some (f.srcValue * (t.area / f.srcArea)))
    ∧ (¬ t.area = 0 →
      areal_weighting_single cols none (some v) "sum" sources targets frags
        false false = .ok (.gk (awGk false "sum" sources frags))
      ∧ (awGk false "sum" sources frags).lookup t.tid =
          some f.srcValue) := by
  have hf : f ∈ frags.filter (fun g => g.tid = t.tid) := by
    rw [hfilter]; exact List.mem_singleton_self f
  have hmem : t.tid ∈ frags.map Frag.tid := by
    rcases List.mem_filter.mp hf with ⟨hfr, hdec⟩
    exact List.mem_map.mpr ⟨f, hfr, of_decide_eq_true hdec⟩
  refine ⟨⟨?_, ?_⟩, fun hz => ⟨?_, ?_⟩⟩
  · simp [areal_weighting_single, hv]
  · rw [awGk_sum, groupbySumVar_lookup _ _ _ hmem, hfilter]
    simp [fragEstimate, fragWeight, harea]
  · simp [areal_weighting_single, hv]
  · rw [awGk_sum, groupbySumVar_lookup _ _ _ hmem, hfilter]
    simp [fragEstimate, fragWeight, harea, htgt, div_self hz]

/-- Witness for the amended C3 at a concrete input: extensive target fully
inside a source of area `4` and value `100` receives `100 * (1/4)`;
intensive target of area `2` fully inside a source of rate `7` receives
`7`. -/
theorem contained_target_value_amended_witness :
    ((areal_weighting_single [] (some "pop") none "sum" [⟨1, 4, 100⟩]
        [⟨1, 1⟩] [⟨1, 1, 1, 100, 4, 1⟩] false false =
          .ok (.gk (awGk true "sum" [⟨1, 4, 100⟩] [⟨1, 1, 1, 100, 4, 1⟩]))
      ∧ (awGk true "sum" [⟨1, 4, 100⟩] [⟨1, 1, 1, 100, 4, 1⟩]).lookup 1 =
          some ((100 : ℚ) * (1 / 4)))
    ∧ (¬ (1 : ℚ) = 0 →
      areal_weighting_single [] none (some "pop") "sum" [⟨1, 4, 100⟩]
        [⟨1, 1⟩] [⟨1, 1, 1, 100, 4, 1⟩] false false =
          .ok (.gk (awGk false "sum" [⟨1, 4, 100⟩] [⟨1, 1, 1, 100, 4, 1⟩]))
      ∧ (awGk false "sum" [⟨1, 4, 100⟩] [⟨1, 1, 1, 100, 4, 1⟩]).lookup 1 =
          some 100)) :=
  contained_target_value_amended [] "pop" (by simp) [⟨1, 4, 100⟩] [⟨1, 1⟩]
    [⟨1, 1, 1, 100, 4, 1⟩] ⟨1, 1⟩ ⟨1, 1, 1, 100, 4, 1⟩ (by rfl) rfl rfl

/-- Claim C8: join policy of OverlapWeighter with geometries returned.  With
`all_geoms=False` the output table has exactly one row per target with at
least one intersecting source (the inner merge, in target order); with
`all_geoms=True` it has exactly one row per input target, and the estimate
is absent exactly for the targets that intersect no source. -/
theorem overlap_join_policy
    (cols : List String) (v : String) (hv : ¬ v ∈ cols)
    (sources : List SourceRow) (targets : List TargetRow) (frags : List Frag)
    (weights : String)
    (hsub : ∀ f ∈ frags, ∃ t ∈ targets, t.tid = f.tid) :
    (areal_weighting_single cols (some v) none weights sources targets frags
        true false =
      .ok (.table ((targets.filter
          (fun t => frags.any (fun f => f.tid = t.tid))).map
        (fun t => ⟨some t, (awGk true weights sources frags).lookup t.tid⟩))))
    ∧ (areal_weighting_single cols (some v) none weights sources targets
        frags true true =
      .ok (.table (targets.map
        (fun t => ⟨some t, (awGk true weights sources frags).lookup t.tid⟩))))
    ∧ (∀ t ∈ targets, ((awGk true weights sources frags).lookup t.tid = none
        ↔ frags.any (fun f => f.tid = t.tid) = false)) := by
  have hmemany : ∀ t : TargetRow, t.tid ∈ frags.map Frag.tid ↔
      frags.any (fun f => f.tid = t.tid) = true := by
    intro t
    rw [List.any_eq_true, List.mem_map]
    constructor
    · rintro ⟨f, hf, hft⟩
      exact ⟨f, hf, decide_eq_true hft⟩
    · rintro ⟨f, hf, hft⟩
      exact ⟨f, hf, of_decide_eq_true hft⟩
  refine ⟨?_, ?_, ?_⟩
  · have h1 : areal_weighting_single cols (some v) none weights sources
        targets frags true false =
        .ok (.table (mergeInner targets (awGk true weights sources frags))) :=
      by simp [areal_weighting_single, hv]
    rw [h1, mergeInner_eq_filter_map]
    have h2 : targets.filter
        (fun t => ((awGk true weights sources frags).lookup t.tid).isSome) =
        targets.filter (fun t => frags.any (fun f => f.tid = t.tid)) := by
      apply List.filter_congr
      intro t _
      rcases hany : frags.any (fun f => f.tid = t.tid) with _ | _
      · have : (awGk true weights sources frags).lookup t.tid = none := by
          rw [awGk_lookup_none_iff]
          rw [hmemany t, hany]
          simp
        simp [this]
      · have hne : ¬ (awGk true weights sources frags).lookup t.tid = none :=
          by
          rw [awGk_lookup_none_iff]
          intro hcon
          exact hcon ((hmemany t).mpr hany)
        rcases hsome : (awGk true weights sources frags).lookup t.tid with
          _ | x
        · exact absurd hsome hne
        · simp
    rw [h2]
  · have h1 : areal_weighting_single cols (some v) none weights sources
        targets frags true true =
        .ok (.table (mergeOuter targets (awGk true weights sources frags))) :=
      by simp [areal_weighting_single, hv]
    rw [h1, mergeOuter]
    have hnil : (awGk true weights sources frags).filter
        (fun q => targets.all (fun t => ¬ t.tid = q.1)) = [] := by
      rw [List.filter_eq_nil_iff]
      intro q hq
      have hq1 : q.1 ∈ frags.map Frag.tid := by
        have : q.1 ∈ (awGk true weights sources frags).map Prod.fst :=
          List.mem_map_of_mem Prod.fst hq
        rw [awGk_map_fst] at this
        exact (mem_groupTids frags q.1).mp this
      rcases List.mem_map.mp hq1 with ⟨f, hf, hft⟩
      rcases hsub f hf with ⟨t, ht, htt⟩
      intro hall
      rcases List.all_eq_true.mp hall t ht with hdec
      exact (of_decide_eq_true hdec) (by rw [htt, hft])
    rw [hnil]
    simp
  · intro t _
    rw [awGk_lookup_none_iff, hmemany t]
    constructor
    · intro h
      rcases hany : frags.any (fun f => f.tid = t.tid) with _ | _
      · rfl
      · exact absurd hany h
    · intro h hcon
      rw [h] at hcon
      exact Bool.false_ne_true hcon

/-- Witness for C8 at a concrete input: two targets, the first with an
intersecting fragment, the second with none; the inner merge has one row
(the first target), the outer merge has two rows with the second estimate
absent. -/
theorem overlap_join_policy_witness :
    (areal_weighting_single [] (some "pop") none "sum" [⟨1, 2, 10⟩]
        [⟨1, 1⟩, ⟨2, 1⟩] [⟨1, 1, 1, 10, 2, 1⟩] true false =
      .ok (.table ((([⟨1, 1⟩, ⟨2, 1⟩] : List TargetRow).filter
          (fun t => ([⟨1, 1, 1, 10, 2, 1⟩] : List Frag).any
            (fun f => f.tid = t.tid))).map
        (fun t => ⟨some t, (awGk true "sum" [⟨1, 2, 10⟩]
          [⟨1, 1, 1, 10, 2, 1⟩]).lookup t.tid⟩))))
    ∧ (areal_weighting_single [] (some "pop") none "sum" [⟨1, 2, 10⟩]
        [⟨1, 1⟩, ⟨2, 1⟩] [⟨1, 1, 1, 10, 2, 1⟩] true true =
      .ok (.table (([⟨1, 1⟩, ⟨2, 1⟩] : List TargetRow).map
        (fun t => ⟨some t, (awGk true "sum" [⟨1, 2, 10⟩]
          [⟨1, 1, 1, 10, 2, 1⟩]).lookup t.tid⟩))))
    ∧ (∀ t ∈ ([⟨1, 1⟩, ⟨2, 1⟩] : List TargetRow),
        ((awGk true "sum" [⟨1, 2, 10⟩] [⟨1, 1, 1, 10, 2, 1⟩]).lookup t.tid =
            none
          ↔ ([⟨1, 1, 1, 10, 2, 1⟩] : List Frag).any
              (fun f => f.tid = t.tid) = false)) :=
  overlap_join_policy [] "pop" (by simp) [⟨1, 2, 10⟩] [⟨1, 1⟩, ⟨2, 1⟩]
    [⟨1, 1, 1, 10, 2, 1⟩] "sum"
    (by intro f hf
        rcases List.mem_singleton.mp hf with h
        exact ⟨⟨1, 1⟩, by simp [h]⟩)

/-- Claim C6 evaluated on the code: with both an extensive and an intensive
variable set, OverlapWeighter raises the configuration `ValueError`
immediately, DasymetricMasker raises the same `ValueError` through its
delegated weighting call, and the geobootstrap facade raises its
configuration `ValueError` before validation; but the regression estimator's
`_model_fit` falls through both family-selection branches, so `mod.fit()`
raises `UnboundLocalError` — which is not a `ValueError` carrying a
configuration message (last conjunct). -/
theorem mixed_variables_error_paths :
    areal_weighting [] (some "a") (some "b") "sum" [] [] [] true false =
      .error (.valueError "Mixed areal interpolation is not yet supported")
    ∧ dasy [] [] [] [] [] (fun _ => []) "clip" (some "a") (some "b") "sum" =
      .error (.valueError "Mixed areal interpolation is not yet supported")
    ∧ model_fit [] (some "a") (some "b") "f" = .error .unboundLocal
    ∧ facade_areal_geobootstrap
        ⟨[], [], [], some "a", some "b", "sum", true, false⟩
        (.ok ([], [], "sid", "tid")) 1 "gaussian" "euclidean" 1 none none 1
        "random points" "median" true (fun _ => []) (fun _ => [])
        (fun _ _ _ _ => ⟨[]⟩) (fun _ _ _ _ _ _ => []) =
      .error
        (.valueError "Areal geobootstrap only supports intensive variables")
    ∧ (∀ msg, ¬ PyError.unboundLocal = PyError.valueError msg) := by
  refine ⟨by simp [areal_weighting], by simp [dasy, areal_weighting],
    by simp [model_fit], ?_, fun msg => by simp⟩
  rfl

/-- Claim C7 evaluated on the code: the dasymetric extensive-path rejoin is
by pandas index alignment (position), not by target identifier.  Concrete
failing input: two targets with identifiers `1` and `2`; the mask removes
target `1` entirely, so the masked pipeline computes a (rescaled) estimate
`10` for identifier `2` only — but the assignment
`targets[extensive] = areal_diff[extensive]` places that value at row
position `0`, i.e. on identifier `1`, and leaves identifier `2` missing. -/
theorem dasy_rejoin_positional_misassignment :
    dasy [] [⟨1, 2, 10⟩] [⟨1, 1⟩, ⟨2, 1⟩] [⟨2, 1⟩] []
      (fun _ => [⟨2, 1, 1, 10, 2, 1⟩]) "clip" (some "pop") none "sum" =
      .ok (.extTable [(⟨1, 1⟩, some 10), (⟨2, 1⟩, none)]) := by
  norm_num [dasy, areal_weighting, areal_weighting_single, awGk,
    groupbySumVar, groupTids, fragEstimate, fragWeight, mergeInner,
    List.insertionSort, List.orderedInsert, List.dedup, List.pwFilter,
    List.lookup, Except.map, List.range_succ, List.filterMap, MergedRow.est,
    List.zip, List.zipWith]

/-- Claim C9 evaluated on the code: requesting the central-tendency
statistic `mean`, which the claim says is accepted, is rejected by the
resampler with a `ValueError` (only `median` is in the accepted list). -/
theorem geobootstrap_mean_rejected :
    areal_geobootstrap [] [] (some 1) "gaussian" "euclidean" 1 "dens" none
      none 1 "random points" "mean" true [] [] (fun _ _ _ _ => ⟨[]⟩)
      (fun _ _ _ _ _ _ => []) =
      .error (.valueError "Only ['median'] are supported") := by
  rfl

/-- Claim C9 as amended: the resampler reduces each target's `r` resampled
values to exactly one central-tendency statistic, which must be `median` —
the only accepted name; any other requested name (such as `mean` or `mode`)
is rejected with a configuration `ValueError` before any computation — and
the spread statistic is not selectable: it is always the standard deviation
(`np.nanstd`). -/
theorem geobootstrap_reduction_amended
    (sources : List SourceRow) (targets : List TargetRow) (r : Option Nat)
    (kernel metric : String) (bandwidth : ℚ) (col : String)
    (sb tb : Option Bounds) (p : Nat) (method groupby : String)
    (dropna : Bool) (bos bot : Bounds)
    (ptp : Bool → String → Bounds → Nat → PointSet)
    (sample : PointSet → PointSet → Nat → String → String → ℚ →
      List (List ℚ)) :
    (¬ groupby = "median" →
      areal_geobootstrap sources targets r kernel metric bandwidth col sb tb
        p method groupby dropna bos bot ptp sample =
        .error (.valueError "Only ['median'] are supported"))
    ∧ (groupby = "median" →
      areal_geobootstrap sources targets r kernel metric bandwidth col sb tb
        p method groupby dropna bos bot ptp sample =
        .ok (((sample (ptp true method (sb.getD bos) p)
            (ptp false method (tb.getD bot) p) (r.getD targets.length)
            kernel metric bandwidth).map nanmedian),
          ((sample (ptp true method (sb.getD bos) p)
            (ptp false method (tb.getD bot) p) (r.getD targets.length)
            kernel metric bandwidth).map nanstd))) := by
  constructor
  · intro h
    simp [areal_geobootstrap, h]
  · intro h
    subst h
    simp [areal_geobootstrap]

/-- Witness for the amended C9 at a concrete input: with `groupby="median"`,
one target and an external resampler returning one row `[1, 2, 3]`, the
result is that row's `nanmedian` paired with its `nanstd`. -/
theorem geobootstrap_reduction_amended_witness :
    areal_geobootstrap [] [⟨1, 1⟩] (some 3) "gaussian" "euclidean" 1 "dens"
      none none 1 "random points" "median" true [] []
      (fun _ _ _ _ => ⟨[]⟩) (fun _ _ _ _ _ _ => [[1, 2, 3]]) =
      .ok ((([[1, 2, 3]] : List (List ℚ)).map nanmedian),
        (([[1, 2, 3]] : List (List ℚ)).map nanstd)) :=
  (geobootstrap_reduction_amended [] [⟨1, 1⟩] (some 3) "gaussian" "euclidean"
    1 "dens" none none 1 "random points" "median" true [] []
    (fun _ _ _ _ => ⟨[]⟩) (fun _ _ _ _ _ _ => [[1, 2, 3]])).2 rfl

/-- Claim C10: every caller-supplied argument of the facade method
`areal_interpolation.areal_geobootstrap` among `r`, `kernel`, `metric`,
`bandwidth`, `source_bounds`, `target_bounds`, `p`, `method`, `groupby` is
ignored — the underlying resampler is invoked with the fixed literals
`r=1000`, `kernel="gaussian"`, `metric="euclidean"`, `bandwidth=1000`,
`source_bounds=None`, `target_bounds=None`, `p=1000`,
`method="random points"`, `groupby="median"` — so with the object state, the
validation result, the `merge` flag and the external collaborators held
fixed, the result does not depend on those nine arguments. -/
theorem facade_geobootstrap_ignores_caller_arguments (st : ArealState)
    (checks : Except PyError (List SourceRow × List TargetRow × String × String))
    (merge : Bool) (boundsOfSources : List SourceRow → Bounds)
    (boundsOfTargets : List TargetRow → Bounds)
    (polyToPoints : Bool → String → Bounds → Nat → PointSet)
    (sample : PointSet → PointSet → Nat → String → String → ℚ → List (List ℚ))
    (r₁ r₂ : Nat) (kernel₁ kernel₂ metric₁ metric₂ : String)
    (bandwidth₁ bandwidth₂ : ℚ) (sb₁ sb₂ tb₁ tb₂ : Option Bounds)
    (p₁ p₂ : Nat) (method₁ method₂ groupby₁ groupby₂ : String) :
    facade_areal_geobootstrap st checks r₁ kernel₁ metric₁ bandwidth₁ sb₁ tb₁
      p₁ method₁ groupby₁ merge boundsOfSources boundsOfTargets polyToPoints
      sample =
    facade_areal_geobootstrap st checks r₂ kernel₂ metric₂ bandwidth₂ sb₂ tb₂
      p₂ method₂ groupby₂ merge boundsOfSources boundsOfTargets polyToPoints
      sample := rfl

end Coss
